import Mathlib

/-!
Verification of the coordinate-resolution and document-assembly pipeline of
the google-takeout-to-kml converter (src/convert.py).

Modelling conventions of the shallow embedding:
* Python floats are modelled as rationals; the float() constructor is
  modelled on its decimal fragment (optional sign, digits, optional single
  decimal point), which covers every numeric string this pipeline produces
  or consumes.
* A CSV row (a Python dict of strings) is an association list of
  string pairs; dict lookup returns the first binding.
* Network I/O is an explicit oracle argument: the redirect/scrape GET of
  the maps/place/ branch is a function from the URL to an optional
  (final URL, page body) pair, where the empty Option models a raised
  request exception; the geocoding endpoint is modelled likewise.
* Python string operations used by the source (split, find, slicing,
  the in operator) are re-implemented over character lists so that all
  definitions evaluate by kernel reduction.
-/

set_option autoImplicit false

namespace TakeoutKml

/-- Drops the pattern from the front of the character list, if it is there. -/
def stripPre : List Char → List Char → Option (List Char)
  | [], cs => some cs
  | _ :: _, [] => none
  | p :: ps, c :: cs => if p = c then stripPre ps cs else none

/-- First index at which the pattern occurs in the character list
(Python str.find, successful case). -/
def findSubIdx : List Char → List Char → Option Nat
  | cs, pat =>
    if (stripPre pat cs).isSome then some 0
    else
      match cs with
      | [] => none
      | _ :: t => (findSubIdx t pat).map (· + 1)

/-- Python membership test: pat in s. -/
def pyContains (s pat : String) : Bool :=
  (findSubIdx s.toList pat.toList).isSome

/-- Python str.find: index of the first occurrence, -1 when absent. -/
def pyFind (s pat : String) : Int :=
  match findSubIdx s.toList pat.toList with
  | some i => (i : Int)
  | none => -1

/-- Helper for pySplit: prepend a character onto the head chunk. -/
def consHead (c : Char) : List (List Char) → List (List Char)
  | [] => [[c]]
  | h :: t => (c :: h) :: t

/-- Fuel-driven worker for pySplit; fuel is an upper bound on the number
of characters consumed, so list length plus one suffices. -/
def pySplitGo (sep : List Char) : Nat → List Char → List (List Char)
  | 0, cs => [cs]
  | fuel + 1, cs =>
    match stripPre sep cs with
    | some rest => [] :: pySplitGo sep fuel rest
    | none =>
      match cs with
      | [] => [[]]
      | c :: t => consHead c (pySplitGo sep fuel t)

/-- Python str.split with a non-empty string separator (keeps empty chunks). -/
def pySplit (s sep : String) : List String :=
  if sep = "" then [s]
  else (pySplitGo sep.toList (s.toList.length + 1) s.toList).map List.asString

/-- Python slice s[a:b] for non-negative a (sufficient for the source's uses). -/
def pySlice (s : String) (a b : Int) : String :=
  ((s.toList.drop a.toNat).take (b - a).toNat).asString

/-- Whitespace characters stripped by Python float(). -/
def isPySpace (c : Char) : Bool :=
  c = ' ' || c = '\t' || c = '\n' || c = '\r' || c = '\x0b' || c = '\x0c'

/-- ASCII lowercase of one character (the fragment of Python str.lower()
relevant to the keyword matching here). -/
def lowerChar (c : Char) : Char :=
  if 'A' ≤ c ∧ c ≤ 'Z' then Char.ofNat (c.toNat + 32) else c

/-- Python str.lower() on ASCII text. -/
def pyLower (s : String) : String := (s.toList.map lowerChar).asString

/-- A Python float arising in this pipeline, kept as the exact decimal
num / 10 ^ exp that float() parsed.  Unnormalized on purpose: all
arithmetic stays on Int and Nat, which the kernel evaluates. -/
structure Dec10 where
  num : Int
  exp : Nat
  deriving Repr, DecidableEq

/-- 10 ^ e as an integer. -/
def pow10 (e : Nat) : Int := ((10 ^ e : Nat) : Int)

/-- The rational value of a stored float; used in specification statements. -/
def Dec10.toRat (a : Dec10) : ℚ := (a.num : ℚ) / ((10 : ℚ) ^ a.exp)

/-- Decidable test for an integer lower bound: m ≤ a as numbers. -/
def Dec10.intLe (m : Int) (a : Dec10) : Bool := m * pow10 a.exp ≤ a.num

/-- Decidable test for an integer upper bound: a ≤ m as numbers. -/
def Dec10.leInt (a : Dec10) (m : Int) : Bool := a.num ≤ m * pow10 a.exp

/-- A natural number printed with at least k digits (zero padded). -/
def padZeros (k n : Nat) : String :=
  let s := Nat.repr n
  (List.replicate (k - s.length) '0').asString ++ s

/-- Model of Python str() on a float: the exact stored decimal, with a
trailing .0 for integral values.  (CPython prints the shortest decimal that
round-trips the binary double; the two agree on the short decimals this
pipeline handles, and no claim depends on the exact digits.) -/
def pyFloatStr (a : Dec10) : String :=
  let sign := if a.num < 0 then "-" else ""
  let m := a.num.natAbs
  if a.exp = 0 then sign ++ Nat.repr m ++ ".0"
  else sign ++ Nat.repr (m / 10 ^ a.exp) ++ "." ++ padZeros a.exp (m % 10 ^ a.exp)

/-- Model of Python float() on its decimal fragment: optional surrounding
whitespace, optional sign, then digits with at most one decimal point and at
least one digit. -/
def parseFloat (s : String) : Option Dec10 :=
  let t := ((s.toList.dropWhile isPySpace).reverse.dropWhile isPySpace).reverse
  let (sign, body) : Int × List Char :=
    match t with
    | '-' :: rest => (-1, rest)
    | '+' :: rest => (1, rest)
    | cs => (1, cs)
  let digitsVal : List Char → Nat := fun cs =>
    cs.foldl (fun a c => a * 10 + (c.toNat - 48)) 0
  match pySplitGo ['.'] (body.length + 1) body with
  | [ip] =>
    if !ip.isEmpty && ip.all Char.isDigit then
      some ⟨sign * digitsVal ip, 0⟩
    else none
  | [ip, fp] =>
    if (!ip.isEmpty || !fp.isEmpty) && ip.all Char.isDigit && fp.all Char.isDigit then
      some ⟨sign * (digitsVal ip * pow10 fp.length + digitsVal fp), fp.length⟩
    else none
  | _ => none

example : parseFloat "20" = some ⟨20, 0⟩ := by decide
example : parseFloat "-74.0060" = some ⟨-740060, 4⟩ := by decide
example : parseFloat "abc" = none := by decide
example : parseFloat "15z" = none := by decide
example : parseFloat "" = none := by decide
example : parseFloat "1." = some ⟨1, 0⟩ := by decide
example : parseFloat ".5" = some ⟨5, 1⟩ := by decide
example : parseFloat "." = none := by decide
example : parseFloat "1.2.3" = none := by decide
example : Dec10.intLe (-90) ⟨200, 0⟩ = true := by decide
example : Dec10.leInt ⟨200, 0⟩ 90 = false := by decide
example : pyContains "https://x/maps/search/1,2" "maps/search/" = true := by decide
example : pySplit "a,,b" "," = ["a", "", "b"] := by decide
example : pySplit "ab" "ab" = ["", ""] := by decide
example : pyFind "x!3dy" "!3d" = 1 := by decide
example : pySlice "abcdef" 2 4 = "cd" := by decide

/-! ## Rows and row access (Python dict of strings) -/

/-- A CSV row: column name to string value, first binding wins. -/
abbrev Row := List (String × String)

/-- Python: row[k] as an Option (none when the key is absent). -/
def lookupRow (row : Row) (k : String) : Option String :=
  (row.find? (fun kv => kv.1 = k)).map (fun kv => kv.2)

/-- Python: key in row. -/
def hasKey (row : Row) (k : String) : Bool := (lookupRow row k).isSome

/-- Python: row.get(k, d). -/
def rowGet (row : Row) (k d : String) : String := (lookupRow row k).getD d

/-- Python: row.get(k1, row.get(k2, d)). -/
def rowGet2 (row : Row) (k1 k2 d : String) : String :=
  match lookupRow row k1 with
  | some v => v
  | none => rowGet row k2 d

/-- The latitude column names tried by process_csv_row, in priority order. -/
def latKeys : List String := ["Latitude", "latitude", "lat"]

/-- The longitude column names tried by process_csv_row, in priority order. -/
def lonKeys : List String := ["Longitude", "longitude", "lon", "lng"]

instance instDecEqExcept {ε α : Type} [DecidableEq ε] [DecidableEq α] :
    DecidableEq (Except ε α) := fun a b => by
  cases a with
  | error e =>
    cases b with
    | error f => exact decidable_of_iff (e = f) (by simp)
    | ok y => exact isFalse (fun h => by cases h)
  | ok x =>
    cases b with
    | error f => exact isFalse (fun h => by cases h)
    | ok y => exact decidable_of_iff (x = y) (by simp)

/-- The explicit-column loops of process_csv_row: the first present key is
parsed with float(); a parse error is the ValueError that the enclosing
handler turns into a Python None result. -/
def explicitCoord (row : Row) : List String → Except Unit (Option Dec10)
  | [] => .ok none
  | k :: rest =>
    match lookupRow row k with
    | some v =>
      match parseFloat v with
      | some q => .ok (some q)
      | none => .error ()
    | none => explicitCoord row rest

/-! ## The resolved-place dictionary and the row result -/

/-- The place dictionary built by process_csv_row.  Optional fields model
dictionary keys that are present only on some return paths: typeKey is the
entry for the key named type (present with a possibly-None value only on the
scrape path), address is present only when geocoding is enabled,
descriptionKey and rawPhone model keys this function never emits but
write_kml checks for. -/
structure Place where
  name : String
  lat : Option Dec10
  lon : Option Dec10
  url : String
  note : String
  typeKey : Option (Option String) := none
  address : Option (Option String) := none
  descriptionKey : Option String := none
  rawPhone : Option String := none
  deriving Repr, DecidableEq

/-- Result of process_csv_row: Python None, an error dictionary, or a place
dictionary. -/
inductive RowResult where
  | skipped
  | failure (msg : String)
  | place (p : Place)
  deriving Repr, DecidableEq

/-- Whether the result is a place dictionary. -/
def RowResult.isPlaceRes : RowResult → Bool
  | .place _ => true
  | _ => false

/-- Whether the result is an error dictionary. -/
def RowResult.isFailureRes : RowResult → Bool
  | .failure _ => true
  | _ => false

/-! ## Inline URL coordinate extraction (the first three patterns) -/

/-- Shared body of the maps/search/ and the at-sign branches: split the tail
on commas and parse the first two tokens, with the partial-mutation
semantics of the Python try block (a ValueError in the second float() call
leaves the first assignment in place). -/
def commaPair (tail : String) (lat lon : Option Dec10) : Option Dec10 × Option Dec10 :=
  let coords := pySplit tail ","
  if coords.length ≥ 2 then
    match parseFloat (coords.headD "") with
    | none => (lat, lon)
    | some la =>
      match parseFloat (coords.getD 1 "") with
      | none => (some la, lon)
      | some lo => (some la, some lo)
  else (lat, lon)

/-- Branch for URLs containing maps/search/ (lines 90-99 of convert.py). -/
def searchBranch (url : String) (lat lon : Option Dec10) : Option Dec10 × Option Dec10 :=
  commaPair ((pySplit url "maps/search/").getLastD "") lat lon

/-- Branch for URLs containing both !3d and !4d (lines 100-111). -/
def d34Branch (url : String) (lat lon : Option Dec10) : Option Dec10 × Option Dec10 :=
  let latStart : Int := pyFind url "!3d" + 3
  let latEnd : Int := pyFind url "!4d"
  let lonStart : Int := pyFind url "!4d" + 3
  if latStart > 3 ∧ latEnd > latStart then
    match parseFloat (pySlice url latStart latEnd) with
    | none => (lat, lon)
    | some la =>
      match parseFloat ((pySplit (pySlice url lonStart (lonStart + 20)) "!").headD "") with
      | none => (some la, lon)
      | some lo => (some la, some lo)
  else (lat, lon)

/-- Branch for URLs containing an at sign (lines 112-121). -/
def atBranch (url : String) (lat lon : Option Dec10) : Option Dec10 × Option Dec10 :=
  commaPair ((pySplit url "@").getLastD "") lat lon

/-- First-structural-match dispatch over the three inline patterns; the
fourth pattern (maps/place/) is handled separately because it performs
network I/O. -/
def inlineBranch (url : String) (lat lon : Option Dec10) : Option Dec10 × Option Dec10 :=
  if pyContains url "maps/search/" then searchBranch url lat lon
  else if pyContains url "!3d" && pyContains url "!4d" then d34Branch url lat lon
  else if pyContains url "@" then atBranch url lat lon
  else (lat, lon)

/-! ## The maps/place/ redirect and scrape fallback

The four coordinate regular expressions of the source all have the shape
literal A, then a group of [0-9.-] characters, then literal B, then a second
group, then an optional trailing literal C.  Since B and C start with a
character outside the class, the greedy group is exactly the maximal run, so
the matcher below (maximal run, no backtracking, leftmost starting position)
is equivalent to re.search on these patterns. -/

/-- Characters of the regex class [0-9.-]. -/
def isCoordChar (c : Char) : Bool := c.isDigit || c = '.' || c = '-'

/-- Try the pattern A group B group C at the head of the character list. -/
def matchPatAt (a b c : List Char) (cs : List Char) : Option (String × String) :=
  match stripPre a cs with
  | none => none
  | some r1 =>
    let (g1, r2) := r1.span isCoordChar
    if g1.isEmpty then none
    else
      match stripPre b r2 with
      | none => none
      | some r3 =>
        let (g2, r4) := r3.span isCoordChar
        if g2.isEmpty then none
        else
          match stripPre c r4 with
          | none => none
          | some _ => some (g1.asString, g2.asString)

/-- Leftmost match of the pattern A group B group C (re.search). -/
def searchPat (a b c : List Char) : List Char → Option (String × String)
  | [] => matchPatAt a b c []
  | ch :: rest =>
    match matchPatAt a b c (ch :: rest) with
    | some g => some g
    | none => searchPat a b c rest

/-- The coordinate patterns tried by the scrape fallback, in source order
(the fifth is a repeat of the second). -/
def scrapePatterns : List (List Char × List Char × List Char) :=
  [("\"latitude\":".toList, ",\"longitude\":".toList, [])
  , ("!3d".toList, "!4d".toList, [])
  , (['@'], [','], [','])
  , ("center=".toList, "%2C".toList, [])
  , ("!3d".toList, "!4d".toList, [])]

/-- Outcome of the scrape loop: no pattern matched; a ValueError raised in
the first or the second float() call of the first matching pattern (the
exception aborts the branch, keeping prior assignments); or both floats
parsed. -/
inductive ScrapeOut where
  | noMatch
  | exnNone
  | exnLat (la : Dec10)
  | found (la lo : Dec10)
  deriving Repr, DecidableEq

/-- The pattern loop of the scrape fallback (lines 176-190): the first
structurally matching pattern is authoritative; its float() calls may raise. -/
def scrapeLoop : List (List Char × List Char × List Char) → String → ScrapeOut
  | [], _ => .noMatch
  | (a, b, c) :: rest, content =>
    match searchPat a b c content.toList with
    | none => scrapeLoop rest content
    | some (g1, g2) =>
      match parseFloat g1 with
      | none => .exnNone
      | some la =>
        match parseFloat g2 with
        | none => .exnLat la
        | some lo => .found la lo

/-- Alternative 1 of the place-type regex: a featureTypeDescription JSON
field. -/
def matchType1At (cs : List Char) : Option String :=
  match stripPre "\"featureTypeDescription\":\"".toList cs with
  | none => none
  | some r1 =>
    let (g, r2) := r1.span (fun c => c ≠ '"')
    if g.isEmpty then none
    else
      match stripPre ['"'] r2 with
      | none => none
      | some _ => some g.asString

/-- Alternative 2 of the place-type regex: a quoted key whose value is the
literal string Point Of Interest. -/
def matchType2At (cs : List Char) : Option String :=
  match stripPre ['"'] cs with
  | none => none
  | some r1 =>
    let (g, r2) := r1.span (fun c => c ≠ '"')
    if g.isEmpty then none
    else
      match stripPre ['"'] r2 with
      | none => none
      | some r3 =>
        let r4 := r3.dropWhile isPySpace
        match stripPre [':'] r4 with
        | none => none
        | some r5 =>
          let r6 := r5.dropWhile isPySpace
          match stripPre "\"Point Of Interest\"".toList r6 with
          | none => none
          | some _ => some g.asString

/-- Leftmost match of the place-type alternation (line 193): at each
position alternative 1 is preferred; the reported type is the non-empty
group of the first match, none when nothing matches. -/
def typeExtract : List Char → Option String
  | [] => none
  | ch :: rest =>
    match matchType1At (ch :: rest) with
    | some g => some g
    | none =>
      match matchType2At (ch :: rest) with
      | some g => some g
      | none => typeExtract rest

/-- Result of the redirect-following GET: the final URL after redirects and
the body of the response; none models a raised request exception. -/
structure FetchResult where
  finalUrl : String
  content : String
  deriving Repr, DecidableEq

/-- The maps/place/ branch (lines 122-207).  Returns inl on one of the three
return statements inside the branch, or inr with the (lat, lon) state when
an exception was caught at line 206 and control falls through to line 209. -/
def placeBranch (name note url : String) (lat lon : Option Dec10)
    (fetch : Option FetchResult) : Sum Place (Option Dec10 × Option Dec10) :=
  match fetch with
  | none => .inr (lat, lon)
  | some fr =>
    -- the redirected-URL extraction, used verbatim by both the first block
    -- and the data=!4m2!3m1!1s block
    let tryAt : Option Dec10 → Option Dec10 → Sum Place (Option Dec10 × Option Dec10) :=
      fun la0 lo0 =>
        if pyContains fr.finalUrl "@" then
          let coords := pySplit ((pySplit fr.finalUrl "@").getLastD "") ","
          if coords.length ≥ 2 then
            match parseFloat (coords.headD "") with
            | none => .inr (la0, lo0)
            | some la =>
              match parseFloat (coords.getD 1 "") with
              | none => .inr (some la, lo0)
              | some lo => .inl ⟨name, some la, some lo, fr.finalUrl, note, none, none, none, none⟩
          else .inr (la0, lo0)
        else .inr (la0, lo0)
    match tryAt lat lon with
    | .inl p => .inl p
    | .inr (lat1, lon1) =>
      let afterData : Sum Place (Option Dec10 × Option Dec10) :=
        if pyContains url "data=!4m2!3m1!1s" && fr.finalUrl ≠ url then tryAt lat1 lon1
        else .inr (lat1, lon1)
      match afterData with
      | .inl p => .inl p
      | .inr (lat2, lon2) =>
        if lat2.isNone || lon2.isNone then
          match scrapeLoop scrapePatterns fr.content with
          | .exnNone => .inr (lat2, lon2)
          | .exnLat la => .inr (some la, lon2)
          | .noMatch =>
            .inl ⟨name, lat2, lon2, fr.finalUrl, note, some (typeExtract fr.content.toList), none, none, none⟩
          | .found la lo =>
            .inl ⟨name, some la, some lo, fr.finalUrl, note, some (typeExtract fr.content.toList), none, none, none⟩
        else
          .inl ⟨name, lat2, lon2, fr.finalUrl, note, some (typeExtract fr.content.toList), none, none, none⟩

/-! ## The resolver: process_csv_row -/

/-- The URL-pattern dispatch of process_csv_row (lines 89-207), an if/elif
chain in which the first structural match wins. -/
def urlStep (name note url : String) (lat lon : Option Dec10)
    (fetch : Option FetchResult) : Sum Place (Option Dec10 × Option Dec10) :=
  if pyContains url "maps/search/" || pyContains url "!3d" && pyContains url "!4d"
      || pyContains url "@" then
    .inr (inlineBranch url lat lon)
  else if pyContains url "maps/place/" then placeBranch name note url lat lon fetch
  else .inr (lat, lon)

/-- Lines 209-234: missing-coordinate error, range validation, assembly of
the place dictionary, optional geocoding. -/
def finishRow (row : Row) (lat lon : Option Dec10)
    (geo : Option (Dec10 → Dec10 → Option String)) : RowResult :=
  match lat, lon with
  | some la, some lo =>
    if !(Dec10.intLe (-90) la && Dec10.leInt la 90)
        || !(Dec10.intLe (-180) lo && Dec10.leInt lo 180) then
      .failure ("Invalid coordinates " ++ pyFloatStr la ++ "," ++ pyFloatStr lo)
    else
      .place ⟨rowGet2 row "Title" "Name" "", some la, some lo,
              rowGet2 row "URL" "Google Maps URL" "", rowGet row "Note" "",
              none, geo.map (fun g => g la lo), none, none⟩
  | _, _ =>
    .failure ("Could not extract coordinates"
      ++ (if hasKey row "URL" || hasKey row "Google Maps URL" then " from URL" else ""))

/-- process_csv_row of convert.py, with the network GET of the maps/place/
branch and the geocoder as explicit oracles.  skipped is the Python None
result (no URL, or a ValueError from an explicit coordinate column caught
by the enclosing handler). -/
def process_csv_row (row : Row) (geo : Option (Dec10 → Dec10 → Option String))
    (fetch : String → Option FetchResult) : RowResult :=
  match explicitCoord row latKeys with
  | .error _ => .skipped
  | .ok lat0 =>
    match explicitCoord row lonKeys with
    | .error _ => .skipped
    | .ok lon0 =>
      if lat0.isNone || lon0.isNone then
        let url := rowGet2 row "URL" "Google Maps URL" ""
        if url = "" then .skipped
        else
          match urlStep (rowGet2 row "Title" "Name" "") (rowGet row "Note" "") url
              lat0 lon0 (fetch url) with
          | .inl p => .place p
          | .inr (lat1, lon1) => finishRow row lat1 lon1 geo
      else finishRow row lat0 lon0 geo

/-! ## The batch loop of process_csv_file (lines 251-264) -/

/-- One entry of the failed list built by process_csv_file. -/
structure FailedRec where
  name : String
  url : String
  error : String
  deriving Repr, DecidableEq

/-- The failed-list entry built from a row and its error message. -/
def mkFailed (row : Row) (e : String) : FailedRec :=
  ⟨rowGet2 row "Title" "Name" "Unknown", rowGet2 row "URL" "Google Maps URL" "", e⟩

/-- The row loop of process_csv_file: each row is resolved; a place result
is appended to the places list, an error result to the failed list, and a
Python None result to neither. -/
def processRows (rows : List Row) (geo : Option (Dec10 → Dec10 → Option String))
    (fetch : String → Option FetchResult) : List Place × List FailedRec :=
  match rows with
  | [] => ([], [])
  | row :: rest =>
    let acc := processRows rest geo fetch
    match process_csv_row row geo fetch with
    | .skipped => acc
    | .failure e => (acc.1, mkFailed row e :: acc.2)
    | .place p => (p :: acc.1, acc.2)

/-! ## write_kml of convert.py: layers, icons, rendering -/

/-- The three fixed layers. -/
inductive Layer where
  | sleep
  | eat
  | doLayer
  deriving Repr, DecidableEq

/-- The display name of a layer (the dictionary key in the source). -/
def layerName : Layer → String
  | .sleep => "Sleep"
  | .eat => "Eat"
  | .doLayer => "Do"

/-- The static description of a layer. -/
def layerDescr : Layer → String
  | .sleep => "Hotels, motels and other lodging"
  | .eat => "Restaurants, bars and cafes"
  | .doLayer => "Activities and other places"

/-- Line 376-378: str(place.get(type-key, Scenic spot)).lower(), with an
empty result replaced by scenic spot.  A key that is present with value
None prints as the string None. -/
def typeDefaulted (t : Option (Option String)) : String :=
  let s := (match t with
    | none => "Scenic spot"
    | some none => "None"
    | some (some v) => v) |> pyLower
  if s = "" then "scenic spot" else s

/-- Lines 380-385: the layer chosen for a type entry.  The eat keyword list
of the source is restaurant, cafe, bar, pub (it does not include dining). -/
def layerOfType (t : Option (Option String)) : Layer :=
  let pt := typeDefaulted t
  if ["hotel", "motel", "lodging"].any (fun x => pyContains pt x) then .sleep
  else if ["restaurant", "cafe", "bar", "pub"].any (fun x => pyContains pt x) then .eat
  else .doLayer

/-- The layer of a place. -/
def classifyPlace (p : Place) : Layer := layerOfType p.typeKey

/-- The icon table ICON_MAP of the source. -/
def iconMap (k : String) : String :=
  if k = "lodging" then "http://maps.google.com/mapfiles/kml/pal4/icon57.png"
  else if k = "restaurant" then "http://maps.google.com/mapfiles/kml/pal4/icon46.png"
  else if k = "bar" then "http://maps.google.com/mapfiles/kml/pal4/icon7.png"
  else if k = "hiking" then "http://maps.google.com/mapfiles/kml/pal4/icon13.png"
  else if k = "swimming" then "http://maps.google.com/mapfiles/kml/pal4/icon61.png"
  else if k = "scenic" then "http://maps.google.com/mapfiles/kml/pal4/icon38.png"
  else "http://maps.google.com/mapfiles/kml/pal4/icon49.png"

/-- get_icon_url of the source: a falsy (absent or empty) type gets the
scenic icon, otherwise case-insensitive keyword buckets. -/
def get_icon_url (placeType : Option String) : String :=
  match placeType with
  | none => iconMap "scenic"
  | some s =>
    if s = "" then iconMap "scenic"
    else
      let t := pyLower s
      if pyContains t "hotel" || pyContains t "motel" || pyContains t "lodging" then
        iconMap "lodging"
      else if pyContains t "restaurant" || pyContains t "cafe" || pyContains t "dining" then
        iconMap "restaurant"
      else if pyContains t "bar" || pyContains t "pub" then iconMap "bar"
      else if pyContains t "hiking" || pyContains t "trail" then iconMap "hiking"
      else if pyContains t "swimming" || pyContains t "pool" || pyContains t "beach" then
        iconMap "swimming"
      else iconMap "default"

/-- Python str() of an optional float (an absent coordinate prints None). -/
def optFloatStr : Option Dec10 → String
  | none => "None"
  | some q => pyFloatStr q

/-- The coordinates element text: longitude first (line 399). -/
def coordsText (p : Place) : String := optFloatStr p.lon ++ "," ++ optFloatStr p.lat ++ ",0"

/-- Python str() of an optional string (None prints as None). -/
def optStrPy : Option String → String
  | none => "None"
  | some s => s

/-- The composed description of a placemark (lines 402-412): source link,
notes, geocoded address, phone, joined by br tags.  The place dictionaries
of this program always carry the url key, never the description key. -/
def descrText (p : Place) : String :=
  let parts : List String :=
    ["<a href=\"" ++ p.url ++ "\">View on Google Maps</a>"]
    ++ (match p.descriptionKey with
        | some d => ["<b>Notes:</b> " ++ d]
        | none => [])
    ++ (match p.address with
        | some a => ["<b>Address:</b> " ++ optStrPy a]
        | none => [])
    ++ (match p.rawPhone with
        | some ph => ["<b>Phone:</b> " ++ ph]
        | none => [])
  String.intercalate "<br/>" parts

/-- A rendered point placemark: name, icon, coordinates text, description. -/
structure Placemark where
  name : String
  iconUrl : String
  coords : String
  descr : String
  deriving Repr, DecidableEq

/-- The placemark rendered into the aggregate document (lines 390-412): the
icon uses the lowered, defaulted type string. -/
def renderAggPm (p : Place) : Placemark :=
  ⟨p.name, get_icon_url (some (typeDefaulted p.typeKey)), coordsText p, descrText p⟩

/-- The placemark rendered into a layer document (lines 457-478): the icon
uses place.get(type-key) directly. -/
def renderLayerPm (p : Place) : Placemark :=
  ⟨p.name, get_icon_url p.typeKey.join, coordsText p, descrText p⟩

/-- A rendered entry of the Failed Conversions folder (lines 420-423). -/
structure FailedPm where
  name : String
  descr : String
  deriving Repr, DecidableEq

/-- The failed-entry rendering. -/
def renderFailedPm (f : FailedRec) : FailedPm :=
  ⟨f.name, "URL: " ++ f.url ++ "\nError: " ++ f.error⟩

/-- The aggregate document: one folder of point placemarks per layer, and
the Failed Conversions folder (absent when the failed list is empty or not
given, because an empty Python list is falsy at line 415). -/
structure AggDoc where
  sleepPms : List Placemark
  eatPms : List Placemark
  doPms : List Placemark
  failedFolder : Option (List FailedPm)
  deriving Repr, DecidableEq

/-- The aggregate document built by write_kml from the places and the
optional failed list. -/
def buildAgg (places : List Place) (failedLocations : Option (List FailedRec)) : AggDoc :=
  { sleepPms := (places.filter (fun p => classifyPlace p == .sleep)).map renderAggPm
    eatPms := (places.filter (fun p => classifyPlace p == .eat)).map renderAggPm
    doPms := (places.filter (fun p => classifyPlace p == .doLayer)).map renderAggPm
    failedFolder :=
      match failedLocations with
      | none => none
      | some [] => none
      | some fs => some (fs.map renderFailedPm) }

/-- The folder of the aggregate document belonging to a layer. -/
def aggFolder (d : AggDoc) : Layer → List Placemark
  | .sleep => d.sleepPms
  | .eat => d.eatPms
  | .doLayer => d.doPms

/-- Number of point placemarks of the aggregate document. -/
def pointPlacemarkCount (d : AggDoc) : Nat :=
  d.sleepPms.length + d.eatPms.length + d.doPms.length

/-- Number of entries of the Failed Conversions folder. -/
def failedEntryCount (d : AggDoc) : Nat := (d.failedFolder.getD []).length

/-- A per-layer document (lines 446-478): heading folder with the layer
name and static description, then that layer's placemarks. -/
structure LayerDoc where
  header : String
  headerDescr : String
  pms : List Placemark
  deriving Repr, DecidableEq

/-- The layer documents emitted by write_kml: one per non-empty layer, in
the fixed Sleep, Eat, Do order. -/
def layerDocs (places : List Place) : List LayerDoc :=
  [Layer.sleep, Layer.eat, Layer.doLayer].filterMap (fun L =>
    let ps := places.filter (fun p => classifyPlace p == L)
    if ps.isEmpty then none
    else some ⟨layerName L, layerDescr L, ps.map renderLayerPm⟩)

/-- The value returned by write_kml: len(places). -/
def write_kml_count (places : List Place) : Nat := places.length

/-! ## Geocoder.reverse_geocode (lines 35-52) -/

/-- The geocoder cache: key string to address, insertion order kept. -/
abbrev GeoCache := List (String × String)

/-- Dictionary lookup in the cache. -/
def cacheLookup (c : GeoCache) (k : String) : Option String :=
  (c.find? (fun kv => kv.1 = k)).map (fun kv => kv.2)

/-- Round num / 10 ^ e to the nearest integer, ties to even (the rounding
of Python fixed-point formatting). -/
def roundHalfEvenScaled (num : Int) (e : Nat) : Int :=
  let d := pow10 e
  let f := Int.fdiv num d
  let r := num - f * d
  if 2 * r < d then f
  else if d < 2 * r then f + 1
  else if f % 2 = 0 then f else f + 1

/-- Python format spec .5f: the value rounded to exactly five decimals, sign
taken from the value. -/
def fmt5 (q : Dec10) : String :=
  let n := roundHalfEvenScaled (q.num * 100000) q.exp
  let sign := if q.num < 0 then "-" else ""
  let m := n.natAbs
  sign ++ Nat.repr (m / 100000) ++ "." ++ padZeros 5 (m % 100000)

/-- The cache key of reverse_geocode (line 37). -/
def cacheKey (lat lon : Dec10) : String := fmt5 lat ++ "," ++ fmt5 lon

/-- Outcome of the geocoding HTTP request: a raised exception, or a JSON
response whose display_name field may be absent. -/
inductive NetResult where
  | err
  | ok (displayName : Option String)
  deriving Repr, DecidableEq

/-- Result of one reverse_geocode call: the returned value, the cache
afterwards, and whether a network request was issued. -/
structure GeoOut where
  result : Option String
  cache : GeoCache
  requested : Bool
  deriving Repr, DecidableEq

/-- reverse_geocode: cache hit returns the stored address without a request;
otherwise a request is issued, a completed response (display_name defaulted
to the empty string) is stored and returned, and an exception returns none
without touching the cache. -/
def reverse_geocode (c : GeoCache) (lat lon : Dec10) (net : NetResult) : GeoOut :=
  let key := cacheKey lat lon
  match cacheLookup c key with
  | some v => ⟨some v, c, false⟩
  | none =>
    match net with
    | .err => ⟨none, c, true⟩
    | .ok dn =>
      let address := dn.getD ""
      ⟨some address, c ++ [(key, address)], true⟩

example : fmt5 ⟨407123449, 7⟩ = "40.71234" := by decide
example : fmt5 ⟨-740060, 4⟩ = "-74.00600" := by decide
example : fmt5 ⟨-1, 6⟩ = "-0.00000" := by decide

/-! ## Definitions referenced by the claim statements -/

/-- The amended layer-classification contract, written as the spec words
it: case-insensitive substring match against fixed keyword sets, checked
in order Sleep then Eat then Do, with the Eat set restaurant, cafe, bar,
pub; an absent or empty category falls through to Do. -/
def classifySpec (category : String) : Layer :=
  let c := pyLower category
  if ["hotel", "motel", "lodging"].any (fun k => pyContains c k) then .sleep
  else if ["restaurant", "cafe", "bar", "pub"].any (fun k => pyContains c k) then .eat
  else .doLayer

/-- The category text of a type entry: absent or None-valued entries have
no text. -/
def categoryText : Option (Option String) → String
  | none => ""
  | some none => ""
  | some (some s) => s

/-- Whether process_csv_row reaches the network-using maps/place/ branch:
the explicit columns leave a coordinate missing, the URL is non-empty,
none of the three inline patterns matches, and maps/place/ occurs. -/
def usesPlaceBranch (row : Row) : Bool :=
  match explicitCoord row latKeys, explicitCoord row lonKeys with
  | .ok lat0, .ok lon0 =>
    (lat0.isNone || lon0.isNone) &&
      (let url := rowGet2 row "URL" "Google Maps URL" ""
       url != "" && !(pyContains url "maps/search/"
         || pyContains url "!3d" && pyContains url "!4d" || pyContains url "@")
         && pyContains url "maps/place/")
  | _, _ => false

/-- The section-8 scenario: three rows, two resolvable, one whose URL
matches the at-sign pattern but does not parse. -/
def scenarioRows : List Row :=
  [[("Title", "A"), ("Latitude", "1.0"), ("Longitude", "2.0")],
   [("Title", "B"), ("URL", "https://x/@3.0,4.0,15z")],
   [("Title", "C"), ("URL", "https://x/@bad,4.0,15z")]]

/-! ## Bridging lemmas -/

theorem cast_pow10 (e : Nat) : ((pow10 e : Int) : ℚ) = (10 : ℚ) ^ e := by
  push_cast [pow10]
  ring

/-- The integer lower-bound test agrees with the rational order. -/
theorem intLe_iff (m : Int) (a : Dec10) :
    Dec10.intLe m a = true ↔ (m : ℚ) ≤ a.toRat := by
  have hp : (0 : ℚ) < (10 : ℚ) ^ a.exp := by positivity
  rw [Dec10.intLe, Dec10.toRat, decide_eq_true_eq, le_div_iff₀ hp, ← cast_pow10]
  constructor
  · intro h; exact_mod_cast h
  · intro h; exact_mod_cast h

/-- The integer upper-bound test agrees with the rational order. -/
theorem leInt_iff (a : Dec10) (m : Int) :
    Dec10.leInt a m = true ↔ a.toRat ≤ (m : ℚ) := by
  have hp : (0 : ℚ) < (10 : ℚ) ^ a.exp := by positivity
  rw [Dec10.leInt, Dec10.toRat, decide_eq_true_eq, div_le_iff₀ hp, ← cast_pow10]
  constructor
  · intro h; exact_mod_cast h
  · intro h; exact_mod_cast h

/-- A non-empty URL read from the row means one of the URL keys is present. -/
theorem hasKey_of_url_ne {row : Row} {k1 k2 : String}
    (h : rowGet2 row k1 k2 "" ≠ "") : (hasKey row k1 || hasKey row k2) = true := by
  unfold rowGet2 rowGet at h
  cases h1 : lookupRow row k1 with
  | some v => simp [hasKey, h1]
  | none =>
    rw [h1] at h
    cases h2 : lookupRow row k2 with
    | some v => simp [hasKey, h2]
    | none => rw [h2] at h; simp at h

/-- Appending a fresh key makes it found by lookup. -/
theorem cacheLookup_append_self {c : GeoCache} {k v : String}
    (h : cacheLookup c k = none) : cacheLookup (c ++ [(k, v)]) k = some v := by
  induction c with
  | nil => simp [cacheLookup, List.find?]
  | cons kv rest ih =>
    simp only [cacheLookup, List.cons_append, List.find?_cons] at h ⊢
    by_cases hk : kv.1 = k
    · simp [hk] at h
    · simp only [decide_eq_false_iff_not.mpr hk] at h ⊢
      have := ih (by simpa [cacheLookup] using h)
      simpa [cacheLookup] using this

/-! ## Claim C5: layer classification (corrected: no dining keyword) -/

/-- C5 counterexample: the claim puts every category containing the keyword
dining into Eat, but the code's Eat keyword list has no dining, so the
category Fine Dining lands in Do. -/
theorem c5_counterexample :
    pyContains (pyLower (typeDefaulted (some (some "Fine Dining")))) "dining" = true
    ∧ layerOfType (some (some "Fine Dining")) = Layer.doLayer
    ∧ Layer.doLayer ≠ Layer.eat := by
  refine ⟨by decide, by decide, by decide⟩

/-- C5 (amended): layer classification is the total deterministic function
of the category text given by case-insensitive substring matching in the
order Sleep then Eat then Do, with keyword sets hotel/motel/lodging and
restaurant/cafe/bar/pub (no dining); absent, None-valued and empty
categories all map to Do. -/
theorem c5_classification_amended (t : Option (Option String)) :
    layerOfType t = classifySpec (categoryText t) := by
  cases t with
  | none => decide
  | some o =>
    cases o with
    | none => decide
    | some s =>
      rw [layerOfType, classifySpec, typeDefaulted, categoryText]
      by_cases h : pyLower s = ""
      · simp only [h]
        decide
      · simp only [h, if_neg]
        simp

/-! ## Claims C8 and C10: the geocoder cache -/

/-- C8: two coordinate pairs with the same 5-decimal cache key share one
network request on the success path: after a first successful call (a cache
miss that issues a request and stores the address), the second call issues
no request and returns the cached address unchanged, whatever the network
would have answered. -/
theorem c8_memoization (c : GeoCache) (lat1 lon1 lat2 lon2 : Dec10) (dn : Option String)
    (hkey : cacheKey lat2 lon2 = cacheKey lat1 lon1)
    (hmiss : cacheLookup c (cacheKey lat1 lon1) = none) :
    reverse_geocode c lat1 lon1 (.ok dn)
      = ⟨some (dn.getD ""), c ++ [(cacheKey lat1 lon1, dn.getD "")], true⟩
    ∧ ∀ net2, reverse_geocode (c ++ [(cacheKey lat1 lon1, dn.getD "")]) lat2 lon2 net2
        = ⟨some (dn.getD ""), c ++ [(cacheKey lat1 lon1, dn.getD "")], false⟩ := by
  refine ⟨by simp [reverse_geocode, hmiss], ?_⟩
  intro net2
  simp [reverse_geocode, hkey, cacheLookup_append_self hmiss]

/-- C8 witness: the pairs 40.7123449 and 40.712345 round to the same key
40.71234; after the first successful call the second returns the cached
address with no request issued. -/
theorem c8_witness :
    reverse_geocode [(cacheKey ⟨407123449, 7⟩ ⟨1, 0⟩, "X")] ⟨40712345, 6⟩ ⟨1, 0⟩ .err
      = ⟨some "X", [(cacheKey ⟨407123449, 7⟩ ⟨1, 0⟩, "X")], false⟩ := by
  have h := c8_memoization [] ⟨407123449, 7⟩ ⟨1, 0⟩ ⟨40712345, 6⟩ ⟨1, 0⟩ (some "X")
    (by decide) (by decide)
  simpa using h.2 .err

/-- C10: only completed responses are cached (an absent display_name is
cached as the empty string); a failed request returns none without writing
a cache entry, so the next call for the same key issues a new request. -/
theorem c10_no_negative_caching (c : GeoCache) (lat lon : Dec10)
    (hmiss : cacheLookup c (cacheKey lat lon) = none) :
    reverse_geocode c lat lon .err = ⟨none, c, true⟩
    ∧ (∀ net2, (reverse_geocode (reverse_geocode c lat lon .err).cache lat lon net2).requested
        = true)
    ∧ ∀ dn, reverse_geocode c lat lon (.ok dn)
        = ⟨some (dn.getD ""), c ++ [(cacheKey lat lon, dn.getD "")], true⟩ := by
  have h1 : reverse_geocode c lat lon .err = ⟨none, c, true⟩ := by
    simp [reverse_geocode, hmiss]
  refine ⟨h1, ?_, by intro dn; simp [reverse_geocode, hmiss]⟩
  intro net2
  rw [h1]
  cases net2 <;> simp [reverse_geocode, hmiss]

/-- C10 witness: a failed request at an empty cache returns none, leaves the
cache empty, and a repeat call still issues a request; a response with no
display_name is cached as the empty string. -/
theorem c10_witness :
    reverse_geocode [] ⟨1, 0⟩ ⟨2, 0⟩ .err = ⟨none, [], true⟩
    ∧ reverse_geocode [] ⟨1, 0⟩ ⟨2, 0⟩ (.ok none)
        = ⟨some "", [] ++ [(cacheKey ⟨1, 0⟩ ⟨2, 0⟩, "")], true⟩ := by
  have h := c10_no_negative_caching [] ⟨1, 0⟩ ⟨2, 0⟩ (by decide)
  exact ⟨h.1, h.2.2 none⟩

/-! ## Claim C2: what happens to undeterminable rows (corrected) -/

/-- C2 counterexample: a row with no URL and no usable explicit coordinates
resolves to the Python None result, not to a typed Failure, and likewise a
row whose explicit latitude is a malformed string; the batch loop then
counts such rows in neither the success nor the failure list, so the claimed
failure count of one per dropped row is violated (both counts are zero). -/
theorem c2_counterexample :
    process_csv_row [("Title", "NoUrl")] none (fun _ => none) = RowResult.skipped
    ∧ (process_csv_row [("Title", "BadLat"), ("Latitude", "abc"),
        ("URL", "https://x/@1,2,3")] none (fun _ => none)).isFailureRes = false
    ∧ processRows [[("Title", "NoUrl")], [("Title", "BadLat"), ("Latitude", "abc"),
        ("URL", "https://x/@1,2,3")]] none (fun _ => none) = ([], []) := by
  refine ⟨by decide, by decide, by decide⟩

/-- C2 (amended): a row whose explicit coordinate field is malformed, or
that has neither usable explicit coordinates nor a URL, makes
process_csv_row return the Python None result rather than a Failure record
or an exception, and the batch loop then drops the row from both the
success and the failure counts. -/
theorem c2_failure_reporting_amended (row : Row) (rows : List Row)
    (geo : Option (Dec10 → Dec10 → Option String)) (fetch : String → Option FetchResult) :
    (explicitCoord row latKeys = .error () → process_csv_row row geo fetch = .skipped)
    ∧ (∀ lat0, explicitCoord row latKeys = .ok lat0 →
        explicitCoord row lonKeys = .error () → process_csv_row row geo fetch = .skipped)
    ∧ (∀ lat0 lon0, explicitCoord row latKeys = .ok lat0 →
        explicitCoord row lonKeys = .ok lon0 → (lat0.isNone || lon0.isNone) = true →
        rowGet2 row "URL" "Google Maps URL" "" = "" →
        process_csv_row row geo fetch = .skipped)
    ∧ (process_csv_row row geo fetch = .skipped →
        processRows (row :: rows) geo fetch = processRows rows geo fetch) := by
  refine ⟨?_, ?_, ?_, ?_⟩
  · intro h
    simp [process_csv_row, h]
  · intro lat0 h1 h2
    simp [process_csv_row, h1, h2]
  · intro lat0 lon0 h1 h2 hnone hurl
    simp [process_csv_row, h1, h2, hnone, hurl]
  · intro h
    simp [processRows, h]

/-- C2 witness: the amended statement applied to the no-URL row. -/
theorem c2_witness :
    process_csv_row [("Title", "NoUrl")] none (fun _ => none) = RowResult.skipped := by
  have h := c2_failure_reporting_amended [("Title", "NoUrl")] [] none (fun _ => none)
  exact h.2.2.1 none none (by decide) (by decide) (by decide) (by decide)

/-! ## Claim C3: explicit columns take precedence (confirmed) -/

/-- C3: when both explicit coordinate columns (first present key of the
latitude priority list, first present key of the longitude priority list)
parse as floats in range, process_csv_row returns a Place carrying exactly
those parsed values, whatever the URL field holds, and the network oracle
is never consulted (the result is the same for every oracle). -/
theorem c3_explicit_precedence (row : Row) (geo : Option (Dec10 → Dec10 → Option String))
    (fetch fetch' : String → Option FetchResult) (la lo : Dec10)
    (hla : explicitCoord row latKeys = .ok (some la))
    (hlo : explicitCoord row lonKeys = .ok (some lo))
    (h1 : (-90 : ℚ) ≤ la.toRat) (h2 : la.toRat ≤ 90)
    (h3 : (-180 : ℚ) ≤ lo.toRat) (h4 : lo.toRat ≤ 180) :
    process_csv_row row geo fetch
      = .place ⟨rowGet2 row "Title" "Name" "", some la, some lo,
          rowGet2 row "URL" "Google Maps URL" "", rowGet row "Note" "",
          none, geo.map (fun g => g la lo), none, none⟩
    ∧ process_csv_row row geo fetch = process_csv_row row geo fetch' := by
  have hb1 : Dec10.intLe (-90) la = true := (intLe_iff _ _).mpr (by exact_mod_cast h1)
  have hb2 : Dec10.leInt la 90 = true := (leInt_iff _ _).mpr (by exact_mod_cast h2)
  have hb3 : Dec10.intLe (-180) lo = true := (intLe_iff _ _).mpr (by exact_mod_cast h3)
  have hb4 : Dec10.leInt lo 180 = true := (leInt_iff _ _).mpr (by exact_mod_cast h4)
  have key : ∀ f, process_csv_row row geo f
      = .place ⟨rowGet2 row "Title" "Name" "", some la, some lo,
          rowGet2 row "URL" "Google Maps URL" "", rowGet row "Note" "",
          none, geo.map (fun g => g la lo), none, none⟩ := by
    intro f
    simp [process_csv_row, hla, hlo, finishRow, hb1, hb2, hb3, hb4]
  exact ⟨key fetch, (key fetch).trans (key fetch').symm⟩

/-- C3 witness: explicit columns win over a URL that encodes different,
in-range coordinates. -/
theorem c3_witness :
    process_csv_row [("Title", "Cafe X"), ("Latitude", "40.7128"),
        ("Longitude", "-74.0060"), ("URL", "https://x/@33.0,44.0,15z")] none (fun _ => none)
      = .place ⟨"Cafe X", some ⟨407128, 4⟩, some ⟨-740060, 4⟩,
          "https://x/@33.0,44.0,15z", "", none, none, none, none⟩ := by
  have h := c3_explicit_precedence
    [("Title", "Cafe X"), ("Latitude", "40.7128"), ("Longitude", "-74.0060"),
      ("URL", "https://x/@33.0,44.0,15z")] none (fun _ => none) (fun _ => none)
    ⟨407128, 4⟩ ⟨-740060, 4⟩ (by decide) (by decide)
    (by norm_num [Dec10.toRat]) (by norm_num [Dec10.toRat])
    (by norm_num [Dec10.toRat]) (by norm_num [Dec10.toRat])
  exact h.1

/-! ## Shared lemmas about the URL branch -/

/-- When the explicit columns leave a coordinate missing and the URL matches
one of the three inline patterns, the resolver result is the validation of
the inline extraction, independently of the network oracle. -/
theorem resolve_inline (row : Row) (geo : Option (Dec10 → Dec10 → Option String))
    (fetch : String → Option FetchResult) (url : String) (lat0 lon0 : Option Dec10)
    (hla : explicitCoord row latKeys = .ok lat0)
    (hlo : explicitCoord row lonKeys = .ok lon0)
    (hnone : (lat0.isNone || lon0.isNone) = true)
    (hurl : rowGet2 row "URL" "Google Maps URL" "" = url)
    (hne : url ≠ "")
    (hmark : (pyContains url "maps/search/" || pyContains url "!3d" && pyContains url "!4d"
        || pyContains url "@") = true) :
    process_csv_row row geo fetch
      = finishRow row (inlineBranch url lat0 lon0).1 (inlineBranch url lat0 lon0).2 geo := by
  simp [process_csv_row, hla, hlo, hnone, hurl, hne, urlStep, hmark]

/-- A missing coordinate after extraction gives the from-URL failure when a
URL key is present. -/
theorem finishRow_none (row : Row) (a b : Option Dec10)
    (geo : Option (Dec10 → Dec10 → Option String))
    (h : a = none ∨ b = none)
    (hk : (hasKey row "URL" || hasKey row "Google Maps URL") = true) :
    finishRow row a b geo = .failure "Could not extract coordinates from URL" := by
  cases a with
  | none => simp [finishRow, hk]
  | some la =>
    cases b with
    | none => simp [finishRow, hk]
    | some lo => simp at h

/-- A full parse of the comma pattern overwrites any prior coordinate
state. -/
theorem commaPair_full {tail : String} {la lo : Dec10}
    (h : commaPair tail none none = (some la, some lo)) :
    ∀ lat0 lon0, commaPair tail lat0 lon0 = (some la, some lo) := by
  intro lat0 lon0
  unfold commaPair at h ⊢
  by_cases hlen : (pySplit tail ",").length ≥ 2
  · simp only [if_pos hlen] at h ⊢
    cases h0 : parseFloat ((pySplit tail ",").headD "") with
    | none => simp_all
    | some la' =>
      cases h1 : parseFloat ((pySplit tail ",").getD 1 "") with
      | none => simp_all
      | some lo' => simp_all
  · rw [if_neg hlen] at h; simp at h

/-- A full parse of the !3d/!4d pattern overwrites any prior coordinate
state. -/
theorem d34Branch_full {url : String} {la lo : Dec10}
    (h : d34Branch url none none = (some la, some lo)) :
    ∀ lat0 lon0, d34Branch url lat0 lon0 = (some la, some lo) := by
  intro lat0 lon0
  unfold d34Branch at h ⊢
  by_cases hc : pyFind url "!3d" + 3 > 3 ∧ pyFind url "!4d" > pyFind url "!3d" + 3
  · simp only [if_pos hc] at h ⊢
    cases h0 : parseFloat (pySlice url (pyFind url "!3d" + 3) (pyFind url "!4d")) with
    | none => simp_all
    | some la' =>
      cases h1 : parseFloat ((pySplit (pySlice url (pyFind url "!4d" + 3)
          (pyFind url "!4d" + 3 + 20)) "!").headD "") with
      | none => simp_all
      | some lo' => simp_all
  · rw [if_neg hc] at h; simp at h

/-- A full parse of the matched inline pattern overwrites any prior
coordinate state: both coordinates come from the URL alone. -/
theorem inlineBranch_full {url : String} {la lo : Dec10}
    (h : inlineBranch url none none = (some la, some lo)) :
    ∀ lat0 lon0, inlineBranch url lat0 lon0 = (some la, some lo) := by
  intro lat0 lon0
  unfold inlineBranch at h ⊢
  by_cases h1 : pyContains url "maps/search/"
  · simp only [h1, if_true] at h ⊢
    exact commaPair_full h lat0 lon0
  · simp only [h1, Bool.false_eq_true, if_false] at h ⊢
    by_cases h2 : (pyContains url "!3d" && pyContains url "!4d") = true
    · simp only [h2, if_true] at h ⊢
      exact d34Branch_full h lat0 lon0
    · simp only [h2, Bool.false_eq_true, if_false] at h ⊢
      by_cases h3 : pyContains url "@"
      · simp only [h3, if_true] at h ⊢
        exact commaPair_full h lat0 lon0
      · simp only [h3, Bool.false_eq_true, if_false] at h
        simp at h

/-! ## Claim C4: URL pattern dispatch (confirmed) -/

/-- C4: with no explicit coordinate columns, URL dispatch is by first
structural match in the fixed order maps/search/, then !3d with !4d, then
the at sign (maps/place/ is reachable only when none of these match): the
result is the validation of exactly the matched pattern's extraction, for
every network oracle, and a parse failure inside the matched pattern ends
in a Failure instead of trying any later pattern. -/
theorem c4_dispatch_first_match (row : Row) (geo : Option (Dec10 → Dec10 → Option String))
    (url : String)
    (hla : explicitCoord row latKeys = .ok none)
    (hlo : explicitCoord row lonKeys = .ok none)
    (hurl : rowGet2 row "URL" "Google Maps URL" "" = url)
    (hne : url ≠ "") :
    (pyContains url "maps/search/" = true →
      (∀ fetch, process_csv_row row geo fetch
        = finishRow row (searchBranch url none none).1 (searchBranch url none none).2 geo)
      ∧ (((searchBranch url none none).1 = none ∨ (searchBranch url none none).2 = none) →
        ∀ fetch, process_csv_row row geo fetch
          = .failure "Could not extract coordinates from URL"))
    ∧ (pyContains url "maps/search/" = false →
        (pyContains url "!3d" && pyContains url "!4d") = true →
      (∀ fetch, process_csv_row row geo fetch
        = finishRow row (d34Branch url none none).1 (d34Branch url none none).2 geo)
      ∧ (((d34Branch url none none).1 = none ∨ (d34Branch url none none).2 = none) →
        ∀ fetch, process_csv_row row geo fetch
          = .failure "Could not extract coordinates from URL"))
    ∧ (pyContains url "maps/search/" = false →
        (pyContains url "!3d" && pyContains url "!4d") = false →
        pyContains url "@" = true →
      (∀ fetch, process_csv_row row geo fetch
        = finishRow row (atBranch url none none).1 (atBranch url none none).2 geo)
      ∧ (((atBranch url none none).1 = none ∨ (atBranch url none none).2 = none) →
        ∀ fetch, process_csv_row row geo fetch
          = .failure "Could not extract coordinates from URL")) := by
  have hk : (hasKey row "URL" || hasKey row "Google Maps URL") = true :=
    hasKey_of_url_ne (by rw [hurl]; exact hne)
  refine ⟨?_, ?_, ?_⟩
  · intro hs
    have hbr : inlineBranch url none none = searchBranch url none none := by
      simp [inlineBranch, hs]
    have key : ∀ fetch, process_csv_row row geo fetch
        = finishRow row (searchBranch url none none).1 (searchBranch url none none).2 geo := by
      intro fetch
      rw [resolve_inline row geo fetch url none none hla hlo rfl hurl hne (by simp [hs]), hbr]
    exact ⟨key, fun hfail fetch => (key fetch).trans
      (finishRow_none row _ _ geo hfail hk)⟩
  · intro hs h34
    have hbr : inlineBranch url none none = d34Branch url none none := by
      simp [inlineBranch, hs, h34]
    have key : ∀ fetch, process_csv_row row geo fetch
        = finishRow row (d34Branch url none none).1 (d34Branch url none none).2 geo := by
      intro fetch
      rw [resolve_inline row geo fetch url none none hla hlo rfl hurl hne
        (by simp [hs, h34]), hbr]
    exact ⟨key, fun hfail fetch => (key fetch).trans
      (finishRow_none row _ _ geo hfail hk)⟩
  · intro hs h34 hat
    have hbr : inlineBranch url none none = atBranch url none none := by
      simp [inlineBranch, hs, h34, hat]
    have key : ∀ fetch, process_csv_row row geo fetch
        = finishRow row (atBranch url none none).1 (atBranch url none none).2 geo := by
      intro fetch
      rw [resolve_inline row geo fetch url none none hla hlo rfl hurl hne
        (by simp [hs, h34, hat]), hbr]
    exact ⟨key, fun hfail fetch => (key fetch).trans
      (finishRow_none row _ _ geo hfail hk)⟩

/-- C4 witness: a URL whose maps/search/ section is garbage but that also
contains a valid at-sign coordinate section still fails: the first
structural match is authoritative and no later pattern is tried. -/
theorem c4_witness :
    process_csv_row [("Title", "T"), ("URL", "https://x/maps/search/p,q@40.7,-74.0,15z")]
        none (fun _ => none)
      = RowResult.failure "Could not extract coordinates from URL" := by
  have h := c4_dispatch_first_match
    [("Title", "T"), ("URL", "https://x/maps/search/p,q@40.7,-74.0,15z")] none
    "https://x/maps/search/p,q@40.7,-74.0,15z" (by decide) (by decide) (by decide)
    (by decide)
  exact (h.1 (by decide)).2 (Or.inl (by decide)) (fun _ => none)

/-! ## Claim C9: a lone explicit coordinate column (corrected) -/

/-- C9 counterexample: with only an explicit longitude column (value 50)
and a maps/search/ URL whose latitude token parses but whose longitude
token does not, process_csv_row returns a Place combining the URL-derived
latitude 20 with the explicit longitude 50 — the lone explicit value is
used together with a URL-derived value for the other axis, contradicting
the claim that such rows are never resolved from the lone explicit value. -/
theorem c9_counterexample :
    process_csv_row [("lon", "50"), ("URL", "https://x/maps/search/20,abc")] none
        (fun _ => none)
      = RowResult.place ⟨"", some ⟨20, 0⟩, some ⟨50, 0⟩, "https://x/maps/search/20,abc",
          "", none, none, none, none⟩
    ∧ parseFloat "50" = some ⟨50, 0⟩
    ∧ parseFloat "abc" = none := by
  refine ⟨by decide, by decide, by decide⟩

/-- C9 (amended): when exactly one explicit coordinate column parses, the
URL branch runs.  A full parse of the matched inline pattern overwrites the
explicit value (both final coordinates come from the URL, whatever the
prior state).  A lone explicit latitude is never used in a resolved Place:
any incomplete URL parse leaves the longitude missing and yields a Failure.
But a lone explicit longitude is combined when the pattern's latitude
token parses and its longitude token does not: the resolver proceeds to
validation with the URL latitude and the explicit longitude. -/
theorem c9_lone_explicit_amended (row : Row) (geo : Option (Dec10 → Dec10 → Option String))
    (fetch : String → Option FetchResult) (url : String)
    (hurl : rowGet2 row "URL" "Google Maps URL" "" = url)
    (hne : url ≠ "")
    (hmark : (pyContains url "maps/search/" || pyContains url "!3d" && pyContains url "!4d"
        || pyContains url "@") = true) :
    (∀ la0, explicitCoord row latKeys = .ok (some la0) →
      explicitCoord row lonKeys = .ok none →
      (inlineBranch url (some la0) none).2 = none →
      process_csv_row row geo fetch = .failure "Could not extract coordinates from URL")
    ∧ (∀ lo0 la lo, explicitCoord row latKeys = .ok none →
      explicitCoord row lonKeys = .ok (some lo0) →
      inlineBranch url none (some lo0) = (some la, some lo) →
      process_csv_row row geo fetch = finishRow row (some la) (some lo) geo)
    ∧ (∀ la lo lat0 lon0, inlineBranch url none none = (some la, some lo) →
      inlineBranch url lat0 lon0 = (some la, some lo)) := by
  have hk : (hasKey row "URL" || hasKey row "Google Maps URL") = true :=
    hasKey_of_url_ne (by rw [hurl]; exact hne)
  refine ⟨?_, ?_, fun la lo lat0 lon0 h => inlineBranch_full h lat0 lon0⟩
  · intro la0 hla hlo hsnd
    rw [resolve_inline row geo fetch url (some la0) none hla hlo (by simp) hurl hne hmark]
    exact finishRow_none row _ _ geo (Or.inr hsnd) hk
  · intro lo0 la lo hla hlo hbr
    rw [resolve_inline row geo fetch url none (some lo0) hla hlo (by simp) hurl hne hmark,
      hbr]

/-- C9 witness: the amended combining statement at the counterexample row,
whose validation then passes and stores the mixed pair. -/
theorem c9_witness :
    process_csv_row [("lon", "50"), ("URL", "https://x/maps/search/20,abc")] none
        (fun _ => none)
      = finishRow [("lon", "50"), ("URL", "https://x/maps/search/20,abc")]
          (some ⟨20, 0⟩) (some ⟨50, 0⟩) none := by
  have h := c9_lone_explicit_amended [("lon", "50"), ("URL", "https://x/maps/search/20,abc")]
    none (fun _ => none) "https://x/maps/search/20,abc" (by decide) (by decide) (by decide)
  exact h.2.1 ⟨50, 0⟩ ⟨20, 0⟩ ⟨50, 0⟩ (by decide) (by decide) (by decide)

/-! ## Claim C1: the stored-coordinate range invariant (corrected) -/

/-- A place produced by the validation step carries both coordinates, in
range. -/
theorem finishRow_place_range {row : Row} {lat lon : Option Dec10}
    {geo : Option (Dec10 → Dec10 → Option String)} {p : Place}
    (h : finishRow row lat lon geo = .place p) :
    ∃ la lo, p.lat = some la ∧ p.lon = some lo
      ∧ (-90 : ℚ) ≤ la.toRat ∧ la.toRat ≤ 90
      ∧ (-180 : ℚ) ≤ lo.toRat ∧ lo.toRat ≤ 180 := by
  cases lat with
  | none => simp [finishRow] at h
  | some la =>
    cases lon with
    | none => simp [finishRow] at h
    | some lo =>
      rw [finishRow] at h
      by_cases hc : (!(Dec10.intLe (-90) la && Dec10.leInt la 90)
          || !(Dec10.intLe (-180) lo && Dec10.leInt lo 180)) = true
      · rw [if_pos hc] at h
        cases h
      · rw [if_neg hc] at h
        simp only [Bool.or_eq_true, Bool.not_eq_true', Bool.and_eq_true, not_or,
          Bool.not_eq_false] at hc
        obtain ⟨⟨hb1, hb2⟩, hb3, hb4⟩ := hc
        refine ⟨la, lo, ?_, ?_, ?_, ?_, ?_, ?_⟩ <;>
          first
          | (cases h; rfl)
          | exact (by exact_mod_cast (intLe_iff _ _).mp hb1)
          | exact (by exact_mod_cast (leInt_iff _ _).mp hb2)
          | exact (by exact_mod_cast (intLe_iff _ _).mp hb3)
          | exact (by exact_mod_cast (leInt_iff _ _).mp hb4)

/-- C1 counterexample: a maps/place/ row whose redirect resolves to an
at-sign URL with latitude 200 is stored as a Place with latitude 200,
which is far outside the range the claim promises — the early return of
the redirect path skips the range validation. -/
theorem c1_counterexample :
    process_csv_row [("Title", "Bad"), ("URL", "https://x/maps/place/abc")] none
        (fun _ => some ⟨"https://x/@200,-74.0060,15z", ""⟩)
      = RowResult.place ⟨"Bad", some ⟨200, 0⟩, some ⟨-740060, 4⟩,
          "https://x/@200,-74.0060,15z", "", none, none, none, none⟩
    ∧ (90 : ℚ) < (Dec10.mk 200 0).toRat := by
  constructor
  · decide
  · norm_num [Dec10.toRat]

/-- C1 (amended): on every resolution path that does not enter the
maps/place/ redirect/scrape branch, a returned Place has both coordinates
present and in range ([-90, 90] for latitude, [-180, 180] for longitude);
the maps/place/ branch, however, returns Places without range validation,
with possibly out-of-range or even absent coordinates. -/
theorem c1_range_invariant_amended (row : Row)
    (geo : Option (Dec10 → Dec10 → Option String))
    (fetch : String → Option FetchResult) (p : Place)
    (hnp : usesPlaceBranch row = false)
    (hres : process_csv_row row geo fetch = .place p) :
    ∃ la lo, p.lat = some la ∧ p.lon = some lo
      ∧ (-90 : ℚ) ≤ la.toRat ∧ la.toRat ≤ 90
      ∧ (-180 : ℚ) ≤ lo.toRat ∧ lo.toRat ≤ 180 := by
  cases hlat : explicitCoord row latKeys with
  | error e => simp [process_csv_row, hlat] at hres
  | ok lat0 =>
    cases hlon : explicitCoord row lonKeys with
    | error e => simp [process_csv_row, hlat, hlon] at hres
    | ok lon0 =>
      by_cases hnone : (lat0.isNone || lon0.isNone) = true
      · by_cases hurl : rowGet2 row "URL" "Google Maps URL" "" = ""
        · simp [process_csv_row, hlat, hlon, hnone, hurl] at hres
        · by_cases hmark : (pyContains (rowGet2 row "URL" "Google Maps URL" "") "maps/search/"
              || pyContains (rowGet2 row "URL" "Google Maps URL" "") "!3d"
                && pyContains (rowGet2 row "URL" "Google Maps URL" "") "!4d"
              || pyContains (rowGet2 row "URL" "Google Maps URL" "") "@") = true
          · simp only [process_csv_row, hlat, hlon, hnone, if_true, urlStep, hmark, hurl,
              if_false, ite_true, ite_false, eq_self_iff_true] at hres
            exact finishRow_place_range hres
          · by_cases hplace : pyContains (rowGet2 row "URL" "Google Maps URL" "")
                "maps/place/" = true
            · exfalso
              simp only [usesPlaceBranch, hlat, hlon] at hnp
              simp [hnone, hurl, hmark, hplace] at hnp
            · simp only [process_csv_row, hlat, hlon, hnone, if_true, urlStep, hurl,
                if_false, ite_true, ite_false, eq_self_iff_true] at hres
              rw [if_neg hmark, if_neg hplace] at hres
              exact finishRow_place_range hres
      · simp only [process_csv_row, hlat, hlon] at hres
        rw [if_neg hnone] at hres
        exact finishRow_place_range hres

/-- C1 witness: the amended invariant applied to an explicit-column row. -/
theorem c1_witness :
    ∃ la lo,
      (Place.mk "W" (some ⟨407128, 4⟩) (some ⟨-740060, 4⟩) "" "" none none none none).lat
        = some la
      ∧ (Place.mk "W" (some ⟨407128, 4⟩) (some ⟨-740060, 4⟩) "" "" none none none none).lon
        = some lo
      ∧ (-90 : ℚ) ≤ la.toRat ∧ la.toRat ≤ 90
      ∧ (-180 : ℚ) ≤ lo.toRat ∧ lo.toRat ≤ 180 :=
  c1_range_invariant_amended
    [("Title", "W"), ("Latitude", "40.7128"), ("Longitude", "-74.0060")] none (fun _ => none)
    (Place.mk "W" (some ⟨407128, 4⟩) (some ⟨-740060, 4⟩) "" "" none none none none)
    (by decide) (by decide)

/-! ## Claim C6: batch counts (confirmed) -/

/-- The places list collects exactly the rows that resolve to a place. -/
theorem processRows_places_len (rows : List Row) (geo : Option (Dec10 → Dec10 → Option String))
    (fetch : String → Option FetchResult) :
    (processRows rows geo fetch).1.length
      = (rows.filter (fun r => (process_csv_row r geo fetch).isPlaceRes)).length := by
  induction rows with
  | nil => rfl
  | cons row rest ih =>
    cases h : process_csv_row row geo fetch with
    | skipped => simp [processRows, h, List.filter_cons, RowResult.isPlaceRes, ih]
    | failure e => simp [processRows, h, List.filter_cons, RowResult.isPlaceRes, ih]
    | place p => simp [processRows, h, List.filter_cons, RowResult.isPlaceRes, ih]

/-- The failed list collects exactly the rows that resolve to an error. -/
theorem processRows_failed_len (rows : List Row) (geo : Option (Dec10 → Dec10 → Option String))
    (fetch : String → Option FetchResult) :
    (processRows rows geo fetch).2.length
      = (rows.filter (fun r => (process_csv_row r geo fetch).isFailureRes)).length := by
  induction rows with
  | nil => rfl
  | cons row rest ih =>
    cases h : process_csv_row row geo fetch with
    | skipped => simp [processRows, h, List.filter_cons, RowResult.isFailureRes, ih]
    | failure e => simp [processRows, h, List.filter_cons, RowResult.isFailureRes, ih]
    | place p => simp [processRows, h, List.filter_cons, RowResult.isFailureRes, ih]

/-- Every place lands in exactly one of the three layer filters. -/
theorem filter_classify_partition (ps : List Place) :
    (ps.filter (fun q => classifyPlace q == Layer.sleep)).length
      + (ps.filter (fun q => classifyPlace q == Layer.eat)).length
      + (ps.filter (fun q => classifyPlace q == Layer.doLayer)).length = ps.length := by
  induction ps with
  | nil => rfl
  | cons p rest ih =>
    cases h : classifyPlace p <;> simp [List.filter_cons, h, ih] <;> omega

/-- The aggregate document has one point placemark per ingested place. -/
theorem pointPlacemarkCount_buildAgg (ps : List Place) (fs : Option (List FailedRec)) :
    pointPlacemarkCount (buildAgg ps fs) = ps.length := by
  simp only [pointPlacemarkCount, buildAgg, List.length_map]
  exact filter_classify_partition ps

/-- The Failed Conversions folder has one entry per failure. -/
theorem failedEntryCount_buildAgg (ps : List Place) (fs : List FailedRec) :
    failedEntryCount (buildAgg ps (some fs)) = fs.length := by
  cases fs with
  | nil => rfl
  | cons f rest => simp [failedEntryCount, buildAgg]

/-- C6: when s rows of a batch resolve to places and f rows to failures,
the aggregate document holds exactly s point placemarks and a Failed
Conversions section of exactly f entries, the returned success count is s
and the failure count is f; in particular the three-row scenario (two
resolvable, one unresolvable) yields counts two and one. -/
theorem c6_counts (rows : List Row) (geo : Option (Dec10 → Dec10 → Option String))
    (fetch : String → Option FetchResult) :
    ((processRows rows geo fetch).1.length
        = (rows.filter (fun r => (process_csv_row r geo fetch).isPlaceRes)).length)
    ∧ ((processRows rows geo fetch).2.length
        = (rows.filter (fun r => (process_csv_row r geo fetch).isFailureRes)).length)
    ∧ (pointPlacemarkCount (buildAgg (processRows rows geo fetch).1
          (some (processRows rows geo fetch).2))
        = (rows.filter (fun r => (process_csv_row r geo fetch).isPlaceRes)).length)
    ∧ (failedEntryCount (buildAgg (processRows rows geo fetch).1
          (some (processRows rows geo fetch).2))
        = (rows.filter (fun r => (process_csv_row r geo fetch).isFailureRes)).length)
    ∧ (write_kml_count (processRows rows geo fetch).1
        = (rows.filter (fun r => (process_csv_row r geo fetch).isPlaceRes)).length)
    ∧ (processRows scenarioRows none (fun _ => none)).1.length = 2
    ∧ (processRows scenarioRows none (fun _ => none)).2.length = 1
    ∧ pointPlacemarkCount (buildAgg (processRows scenarioRows none (fun _ => none)).1
        (some (processRows scenarioRows none (fun _ => none)).2)) = 2
    ∧ failedEntryCount (buildAgg (processRows scenarioRows none (fun _ => none)).1
        (some (processRows scenarioRows none (fun _ => none)).2)) = 1 := by
  refine ⟨processRows_places_len rows geo fetch, processRows_failed_len rows geo fetch,
    ?_, ?_, ?_, by decide, by decide, by decide, by decide⟩
  · rw [pointPlacemarkCount_buildAgg]
    exact processRows_places_len rows geo fetch
  · rw [failedEntryCount_buildAgg]
    exact processRows_failed_len rows geo fetch
  · rw [write_kml_count]
    exact processRows_places_len rows geo fetch

/-! ## Claim C7: aggregate and layer documents agree (confirmed) -/

/-- The aggregate folder of a layer renders that layer's filtered places. -/
theorem aggFolder_buildAgg (places : List Place) (fs : Option (List FailedRec)) (L : Layer) :
    aggFolder (buildAgg places fs) L
      = (places.filter (fun q => classifyPlace q == L)).map renderAggPm := by
  cases L <;> rfl

/-- Among the emitted layer documents, exactly one carries the header of a
non-empty layer, and it holds precisely that layer's rendered places. -/
theorem layerDocs_filter_eq (places : List Place) (L : Layer)
    (h : places.filter (fun q => classifyPlace q == L) ≠ []) :
    (layerDocs places).filter (fun d => d.header = layerName L)
      = [⟨layerName L, layerDescr L,
          (places.filter (fun q => classifyPlace q == L)).map renderLayerPm⟩] := by
  by_cases h1 : (places.filter (fun q => classifyPlace q == Layer.sleep)).isEmpty <;>
    by_cases h2 : (places.filter (fun q => classifyPlace q == Layer.eat)).isEmpty <;>
    by_cases h3 : (places.filter (fun q => classifyPlace q == Layer.doLayer)).isEmpty <;>
    cases L <;>
    simp_all [layerDocs, List.filterMap_cons, layerName, layerDescr,
      List.isEmpty_iff, List.filter_cons]

/-- C7: every place of the batch is rendered into the aggregate folder of
its layer; exactly one layer document carries that layer's header, that
document contains the place's rendering, the place belongs to no other
layer's list, and the name, coordinates text, and composed description of
its aggregate and layer renderings are identical. -/
theorem c7_roundtrip (places : List Place) (p : Place) (hp : p ∈ places) :
    renderAggPm p ∈ aggFolder (buildAgg places none) (classifyPlace p)
    ∧ ((layerDocs places).filter (fun d => d.header = layerName (classifyPlace p))
        = [⟨layerName (classifyPlace p), layerDescr (classifyPlace p),
            (places.filter (fun q => classifyPlace q == classifyPlace p)).map renderLayerPm⟩])
    ∧ renderLayerPm p
        ∈ (places.filter (fun q => classifyPlace q == classifyPlace p)).map renderLayerPm
    ∧ (∀ L, L ≠ classifyPlace p → p ∉ places.filter (fun q => classifyPlace q == L))
    ∧ (renderAggPm p).name = (renderLayerPm p).name
    ∧ (renderAggPm p).coords = (renderLayerPm p).coords
    ∧ (renderAggPm p).descr = (renderLayerPm p).descr := by
  have hmem : p ∈ places.filter (fun q => classifyPlace q == classifyPlace p) :=
    List.mem_filter_of_mem hp (by simp)
  refine ⟨?_, ?_, List.mem_map_of_mem renderLayerPm hmem, ?_, rfl, rfl, rfl⟩
  · rw [aggFolder_buildAgg]
    exact List.mem_map_of_mem renderAggPm hmem
  · exact layerDocs_filter_eq places (classifyPlace p) (List.ne_nil_of_mem hmem)
  · intro L hL hmem2
    have h2 := beq_iff_eq.mp (List.mem_filter.mp hmem2).2
    exact hL h2.symm

/-- C7 witness: the round trip applied to a one-place batch. -/
theorem c7_witness :
    renderLayerPm (Place.mk "W" (some ⟨1, 0⟩) (some ⟨2, 0⟩) "u" "n" none none none none)
      ∈ (([Place.mk "W" (some ⟨1, 0⟩) (some ⟨2, 0⟩) "u" "n" none none none none]).filter
          (fun q => classifyPlace q
            == classifyPlace
              (Place.mk "W" (some ⟨1, 0⟩) (some ⟨2, 0⟩) "u" "n" none none none none))).map
          renderLayerPm :=
  (c7_roundtrip [Place.mk "W" (some ⟨1, 0⟩) (some ⟨2, 0⟩) "u" "n" none none none none]
    (Place.mk "W" (some ⟨1, 0⟩) (some ⟨2, 0⟩) "u" "n" none none none none)
    (by decide)).2.2.1

end TakeoutKml
